import Mathlib

/-!
Shallow embedding of the CloudLaunch base VM application plugin
(`cloudlaunch/backend_plugins/base_vm_app.py`) and proofs about its
network-resolution, firewall-resolution, provisioning, configuration and
lifecycle logic.

Remote provider operations (CloudBridge calls) are modelled as fields of a
`Provider` record: pure lookups become list searches, creations become
oracle functions supplied by the provider value, and fallible remote calls
return `Except String`.  Python dictionary truthiness (`if not x`) is
modelled explicitly on `Option String` values, where both a missing key
and an empty string are falsy.
-/

deriving instance DecidableEq for Except

namespace CloudLaunch

/-- Python truthiness of an optional string: `None` and `""` are falsy. -/
def pyTruthy : Option String → Bool
  | none => false
  | some s => !s.isEmpty

/-- Python `a or d` for an optional string `a` and a string default `d`. -/
def pyOr (a : Option String) (d : String) : String :=
  match a with
  | none => d
  | some s => if s.isEmpty then d else s

/-- Python `a or b` where both operands are optional strings. -/
def pyOrOpt (a b : Option String) : Option String :=
  if pyTruthy a then a else b

/-- A CloudBridge subnet: id, parent network id and availability zone. -/
structure Subnet where
  id : String
  network_id : String
  zone : String
deriving DecidableEq, Repr

/-- A CloudBridge network: id, name, its subnets and its internet gateway. -/
structure FloatingIP where
  public_ip : String
  in_use : Bool
deriving DecidableEq, Repr

/-- An internet gateway: its current floating IPs plus the floating IP the
provider would hand back from `floating_ips.create()`. -/
structure Gateway where
  floating_ips : List FloatingIP
  newFip : FloatingIP
deriving DecidableEq, Repr

structure Network where
  id : String
  name : String
  subnets : List Subnet
  gateway : Gateway
deriving DecidableEq, Repr

/-- A router: id, the network it serves and the subnets attached to it. -/
structure Router where
  id : String
  network_id : String
  subnets : List Subnet
deriving DecidableEq, Repr

/-- A VM firewall (security group) as seen through CloudBridge. -/
structure VMF where
  id : String
  label : String
  network_id : Option String
  description : String
deriving DecidableEq, Repr

/-- An SSH key pair; `material` is only present at creation time. -/
structure KeyPair where
  id : String
  name : String
  material : Option String
deriving DecidableEq, Repr

structure Image where
  id : String
deriving DecidableEq, Repr

/-- A compute instance: id plus its reported public and private addresses. -/
structure Instance where
  id : String
  public_ips : List String
  private_ips : List String
deriving DecidableEq, Repr

/-- The provider capability surface used by the plugin.  List fields model
the provider-side resource collections; function fields are oracles for
the provider's create / wait operations, returning `Except` when the
remote call may raise. -/
structure Provider where
  networks : List Network
  subnets : List Subnet
  routers : List Router
  getOrCreateDefaultSubnet : String → Subnet
  vm_firewalls : List VMF
  createVmf : String → Option String → String → VMF
  key_pairs : List KeyPair
  createKp : String → KeyPair
  images : List Image
  createRouter : String → String → Except String Router
  getOrCreateGateway : String → Except String Gateway
  attachGateway : Router → Gateway → Except String Unit
  attachSubnet : Router → Subnet → Except String Unit
  createInstance : String → Instance
  waitReady : String → Except String Unit
  refreshInstance : Instance → Instance
  instances : List Instance
  deleteWait : String → Except String Unit

/-- `provider.networking.networks.get(nid)`: `None` when absent. -/
def getNetwork (p : Provider) (nid : String) : Option Network :=
  p.networks.find? (fun n => n.id == nid)

/-- One entry of the firewall specification's `rules` list; every field is
read with `.get`, hence optional. -/
structure Rule where
  src_group : Option String
  protocol : Option String
  from_ : Option String
  to_ : Option String
  cidr : Option String
deriving DecidableEq, Repr

/-- One firewall group specification: `securityGroup`, `description`,
`rules`. -/
structure GroupSpec where
  securityGroup : Option String
  description : Option String
  rules : List Rule
deriving DecidableEq, Repr

/-- A `vmf.rules.create(...)` call emitted by firewall resolution:
the target firewall and the keyword arguments passed. -/
structure CreatedRule where
  fw_id : String
  direction : String
  protocol : Option String
  from_port : Int
  to_port : Int
  src_dest_fw : Option String
  cidr : Option String
deriving DecidableEq, Repr

/-- Decimal value of a digit string, `none` when empty or not all
digits. -/
def pyDigits (cs : List Char) : Option Nat :=
  if cs.isEmpty || !cs.all (fun c => c.isDigit) then none
  else some (cs.foldl (fun n c => n * 10 + (c.toNat - 48)) 0)

/-- Python `int(x)` on an optional string: `None` (TypeError) and
non-numeric strings (ValueError) raise, modelled as `none`; the model
covers the plain decimal-digit case the firewall format uses. -/
def pyInt (x : Option String) : Option Int :=
  match x with
  | none => none
  | some s => (pyDigits s.data).map Int.ofNat

/-- `BaseVMAppPlugin._get_or_create_vmf`: return the first existing
firewall with the requested label whose `network_id` is unset or matches
the subnet's network, else create one on that network. -/
def _get_or_create_vmf (p : Provider) (subnet : Option Subnet)
    (vmf_name : String) (description : String) : VMF :=
  let network_id := subnet.map (fun sn => sn.network_id)
  match p.vm_firewalls.find? (fun vmf =>
      vmf.label == vmf_name &&
      (vmf.network_id == none || vmf.network_id == network_id)) with
  | some vmf => vmf
  | none => p.createVmf vmf_name network_id description

/-- The body of the per-rule loop of `configure_vm_firewalls`: the
`vmf.rules.create` call issued for one rule, `none` when the per-rule
`except` clause swallowed a TypeError/ValueError from `int(...)`.  Note
the source passes `src_dest_fw=vmf` — the group's own firewall — whenever
`src_group` is truthy, ignoring the value of `src_group` itself. -/
def applyRule (vmf : VMF) (rule : Rule) : Option CreatedRule :=
  if pyTruthy rule.src_group then
    match pyInt rule.from_, pyInt rule.to_ with
    | some f, some t =>
        some ⟨vmf.id, "INBOUND", rule.protocol, f, t, some vmf.id, none⟩
    | _, _ => none
  else
    match pyInt rule.from_, pyInt rule.to_ with
    | some f, some t =>
        some ⟨vmf.id, "INBOUND", rule.protocol, f, t, none, rule.cidr⟩
    | _, _ => none

/-- The `for group in firewall` loop of `configure_vm_firewalls`.  The
source's `return vmfl` sits at the end of the loop body, so the first
iteration returns; when the list is empty the loop falls through and the
Python function implicitly returns `None`.  The second component collects
the `rules.create` calls issued. -/
def fwGroupsLoop (p : Provider) (subnet : Option Subnet) :
    List GroupSpec → List VMF → Option (List VMF) × List CreatedRule
  | [], _vmfl => (none, [])
  | group :: _rest, vmfl =>
      let vmf_name := pyOr group.securityGroup "cloudlaunch"
      let vmf_desc := pyOr group.description "Created by CloudLaunch"
      let vmf := _get_or_create_vmf p subnet vmf_name vmf_desc
      let created := group.rules.filterMap (applyRule vmf)
      (some (vmfl ++ [vmf]), created)

/-- `BaseVMAppPlugin.configure_vm_firewalls`: returns the security-group
list (`None` for an empty specification) and the rule-creation calls
issued. -/
def configure_vm_firewalls (p : Provider) (subnet : Option Subnet)
    (firewall : List GroupSpec) : Option (List VMF) × List CreatedRule :=
  fwGroupsLoop p subnet firewall []

/-- The `for sn in net.subnets` loop of `get_or_create_default_subnet`:
return the first subnet outright when no placement constraint is given,
else the first subnet whose zone equals the placement. -/
def findSubnetIn (placement : Option String) : List Subnet → Option Subnet
  | [] => none
  | sn :: rest =>
      if !pyTruthy placement then some sn
      else if sn.zone == placement.getD "" then some sn
      else findSubnetIn placement rest

/-- `BaseVMAppPlugin.get_or_create_default_subnet`.  When a (truthy)
network id is given its subnets are scanned first; if the lookup of the
network returns `None` the subsequent attribute access raises
(`Except.error`).  When the scan finds nothing — or no network id was
given — the provider default subnet for the placement is requested, with
a falsy placement normalised to the empty string. -/
def get_or_create_default_subnet (p : Provider) (network_id : Option String)
    (placement : Option String) : Except String Subnet :=
  let fromNet : Except String (Option Subnet) :=
    if pyTruthy network_id then
      match getNetwork p (network_id.getD "") with
      | none => .error "AttributeError: NoneType object has no attribute subnets"
      | some net => .ok (findSubnetIn placement net.subnets)
    else .ok none
  match fromNet with
  | .error e => .error e
  | .ok (some sn) => .ok sn
  | .ok none =>
      let placement' := if !pyTruthy placement then "" else placement.getD ""
      .ok (p.getOrCreateDefaultSubnet placement')

/-- The body of `setup_networking`'s outer `try`: check whether the
subnet's network already has a router attaching the subnet; otherwise
create a router, create/attach an internet gateway, and (inner `try`,
errors ignored) attach the network's subnets to the router.  Any error
the computation produces is swallowed by the caller. -/
def ensureReachability (p : Provider) (subnet : Subnet) : Except String Unit :=
  let found_routers := p.routers.filter (fun r => r.network_id == subnet.network_id)
  if found_routers.any (fun r => r.subnets.any (fun sn => sn.id == subnet.id)) then
    .ok ()
  else
    match getNetwork p subnet.network_id with
    | none => .error "AttributeError: NoneType network"
    | some net => do
        let router ← p.createRouter ("cl-router-" ++ net.name) subnet.network_id
        let gw ← p.getOrCreateGateway net.id
        let _ ← p.attachGateway router gw
        let _ignored := net.subnets.map (fun sn => p.attachSubnet router sn)
        .ok ()

/-- The subnet-resolution prefix of `setup_networking`: fetch the subnet
by id when one is given (a missing id yields Python `None`), else
delegate to `get_or_create_default_subnet`. -/
def resolve_subnet (p : Provider) (net_id subnet_id placement : Option String) :
    Except String (Option Subnet) :=
  if pyTruthy subnet_id then
    .ok (p.subnets.find? (fun s => s.id == subnet_id.getD ""))
  else
    (get_or_create_default_subnet p net_id placement).map some

/-- `BaseVMAppPlugin.setup_networking`: resolve the subnet, then run the
reachability block inside `try/except` — its outcome, error or not, is
discarded (a `None` subnet makes the block raise an AttributeError, also
swallowed) — and return the resolved subnet. -/
def setup_networking (p : Provider) (net_id subnet_id placement : Option String) :
    Except String (Option Subnet) := do
  let subnet ← resolve_subnet p net_id subnet_id placement
  let _swallowed : Except String Unit :=
    match subnet with
    | none => .error "AttributeError: NoneType object has no attribute network_id"
    | some sn => ensureReachability p sn
  .ok subnet

/-- The cloudlaunch configuration keys consumed by launch-property
resolution and host provisioning. -/
structure CLConfig where
  network : Option String
  subnet : Option String
  placementZone : Option String
  firewall : List GroupSpec
  keyPair : Option String
  customImageID : Option String
  vmType : Option String
  staticIP : Option String
  rootStorageType : Option String
  rootStorageSize : Option String

/-- `BaseVMAppPlugin.resolve_launch_properties`: set up networking, then
resolve firewalls only when the `firewall` key is truthy (a missing or
empty list leaves `vmf = None`). -/
def resolve_launch_properties (p : Provider) (cfg : CLConfig) :
    Except String (Option Subnet × Option String × Option (List VMF)) := do
  let subnet ← setup_networking p cfg.network cfg.subnet cfg.placementZone
  let vmf : Option (List VMF) :=
    if !cfg.firewall.isEmpty then
      (configure_vm_firewalls p subnet cfg.firewall).1
    else none
  .ok (subnet, cfg.placementZone, vmf)

/-- One dotted-quad octet as accepted by Python's `ipaddress` module:
one to three decimal digits, no leading zero, value at most 255. -/
def parseOctet (cs : List Char) : Option Nat :=
  if cs.isEmpty || cs.length > 3 then none
  else if !cs.all (fun c => c.isDigit) then none
  else if cs.length > 1 && cs.headD '0' == '0' then none
  else match pyDigits cs with
       | some n => if n ≤ 255 then some n else none
       | none => none

/-- Split a character list at every dot (Python `str.split`, which yields
an empty group between adjacent dots and at the ends). -/
def splitDots : List Char → List (List Char)
  | [] => [[]]
  | c :: rest =>
      if c == '.' then [] :: splitDots rest
      else match splitDots rest with
        | [] => [[c]]
        | g :: gs => (c :: g) :: gs

/-- `ipaddress.ip_address` on a dotted-quad string, as the 32-bit value.
The model covers the IPv4 address family (the family the plugin's legacy
NeCTAR branch deals in); any other string is a parse failure. -/
def parse_ipv4 (s : String) : Option Nat :=
  match splitDots s.data with
  | [a, b, c, d] =>
      match parseOctet a, parseOctet b, parseOctet c, parseOctet d with
      | some a', some b', some c', some d' =>
          some (((a' * 256 + b') * 256 + c') * 256 + d')
      | _, _, _, _ => none
  | _ => none

/-- Membership of a 32-bit IPv4 value in a CIDR block of the given base
address and mask length. -/
def inNet (ip base len : Nat) : Bool :=
  ip / 2 ^ (32 - len) == base / 2 ^ (32 - len)

/-- `IPv4Address.is_private`: membership in any of the module's private
networks (0.0.0.0/8, 10/8, 127/8, 169.254/16, 172.16/12, 192.0.0.0/29,
192.0.0.170/31, 192.0.2/24, 192.168/16, 198.18/15, 198.51.100/24,
203.0.113/24, 240/4, 255.255.255.255/32). -/
def ipv4_is_private (ip : Nat) : Bool :=
  inNet ip 0x00000000 8 || inNet ip 0x0A000000 8 || inNet ip 0x7F000000 8 ||
  inNet ip 0xA9FE0000 16 || inNet ip 0xAC100000 12 || inNet ip 0xC0000000 29 ||
  inNet ip 0xC00000AA 31 || inNet ip 0xC0000200 24 || inNet ip 0xC0A80000 16 ||
  inNet ip 0xC6120000 15 || inNet ip 0xC6336400 24 || inNet ip 0xCB007100 24 ||
  inNet ip 0xF0000000 4 || inNet ip 0xFFFFFFFF 32

/-- `IPv4Address.is_global`: outside the shared address space
100.64.0.0/10 and not private. -/
def ipv4_is_global (ip : Nat) : Bool :=
  !inNet ip 0x64400000 10 && !ipv4_is_private ip

/-- `BaseVMAppPlugin.attach_public_ip`.  Tier 1: a non-empty first public
address is returned unchanged.  Tier 2: else the first private address is
parsed (raising on an empty list or an unparsable string) and returned
when globally routable.  Tier 3/4: else the launch network's gateway is
scanned for the first unused floating IP, which is attached, and when
none is free a freshly created floating IP is attached; the attached
address is returned.  A missing network makes the gateway access raise.
`attachFromPrivate` is the fall-through of the tier-1 test (everything
from the first `elif` on). -/
def attachFromPrivate (p : Provider) (inst : Instance)
    (network_id : Option String) : Except String String :=
  match inst.private_ips with
  | [] => .error "IndexError: list index out of range"
  | priv0 :: _ =>
      match parse_ipv4 priv0 with
      | none => .error ("ValueError: " ++ priv0 ++ " does not appear to be an IPv4 or IPv6 address")
      | some addr =>
          if ipv4_is_global addr then .ok priv0
          else
            match network_id.bind (fun nid => getNetwork p nid) with
            | none => .error "AttributeError: NoneType object has no attribute gateways"
            | some net =>
                let gateway := net.gateway
                match gateway.floating_ips.find? (fun ip => !ip.in_use) with
                | some fip => .ok fip.public_ip
                | none => .ok gateway.newFip.public_ip

def attach_public_ip (p : Provider) (inst : Instance)
    (network_id : Option String) : Except String String :=
  match inst.public_ips with
  | pub0 :: _ =>
      if !pub0.isEmpty then .ok pub0
      else attachFromPrivate p inst network_id
  | [] => attachFromPrivate p inst network_id

/-- `BaseVMAppPlugin._get_or_create_kp`: first key pair found by name, or
a freshly created one. -/
def _get_or_create_kp (p : Provider) (kp_name : String) : KeyPair :=
  match p.key_pairs.filter (fun kp => kp.name == kp_name) with
  | kp :: _ => kp
  | [] => p.createKp kp_name

/-- A launch configuration: a boot volume of the given size built from the
image, or nothing (`lc = None`). -/
structure LaunchConfig where
  volume_source : String
  volume_size : Int
  is_root : Bool
deriving DecidableEq, Repr

/-- `BaseVMAppPlugin._get_cb_launch_config`: only a `rootStorageType` of
`"volume"` yields a launch config, with `rootStorageSize` defaulting
to 20. -/
def _get_cb_launch_config (image : Option Image) (cfg : CLConfig) :
    Option LaunchConfig :=
  if cfg.rootStorageType.getD "instance" == "volume" then
    match pyInt (some (cfg.rootStorageSize.getD "20")) with
    | some size => some ⟨(image.map Image.id).getD "", size, true⟩
    | none => none
  else none

/-- The per-cloud defaults read from `provider_config['cloud_config']`. -/
structure CloudConfig where
  image_id : Option String
  default_instance_type : Option String

/-- The slice of `provider_config` consumed by `_provision_host`. -/
structure ProviderConfig where
  cloud_config : CloudConfig
  cloud_user_data : Option String
  ssh_public_key : Option String
  runCmd : Option (List String)

/-- The user-data document assembled by `_provision_host`: the cloud user
data, then a `#cloud-config` header when a generated key or run commands
exist, then the key and command directives.  (Python renders each run
command through `rc.split(" ")`, i.e. as a list literal; the rendering
itself is irrelevant to every claim, so the command text stands in for
it here.) -/
def buildUserData (pcfg : ProviderConfig) : String :=
  let base := pyOr pcfg.cloud_user_data ""
  let base :=
    if pyTruthy pcfg.ssh_public_key || !(pcfg.runCmd.getD []).isEmpty then
      base ++ "\n#cloud-config\n"
    else base
  let base :=
    if pyTruthy pcfg.ssh_public_key then
      base ++ "\nssh_authorized_keys:\n    - " ++ pcfg.ssh_public_key.getD ""
    else base
  if !(pcfg.runCmd.getD []).isEmpty then
    (pcfg.runCmd.getD []).foldl (fun acc rc => acc ++ "\n - " ++ rc ++ "\n ")
      (base ++ "\nruncmd:")
  else base

/-- The `results` record assembled at the end of `_provision_host`. -/
structure ProvResult where
  keyPair_id : String
  keyPair_name : String
  keyPair_material : Option String
  securityGroup_id : String
  securityGroup_name : String
  instance_id : String
  publicIP : String
deriving DecidableEq, Repr

/-- `BaseVMAppPlugin._provision_host`: resolve image, key pair, launch
properties and launch config; launch the instance and wait for readiness;
optionally attach a requested static IP; then assemble the result record.
The `securityGroup` entry subscripts `vmfl[0]`, which raises a TypeError
when firewall resolution produced `None` (no firewall specification) and
an IndexError on an empty list. -/
def _provision_host (p : Provider) (name : String) (cfg : CLConfig)
    (pcfg : ProviderConfig) : Except String ProvResult := do
  let custom_image_id := cfg.customImageID
  let img := p.images.find? (fun i =>
    some i.id == pyOrOpt custom_image_id pcfg.cloud_config.image_id)
  let kp := _get_or_create_kp p (pyOr cfg.keyPair "cloudlaunch-key-pair")
  let (subnet, placement_zone, vmfl) ← resolve_launch_properties p cfg
  let _cb_launch_config := _get_cb_launch_config img cfg
  let _vm_type := pyOrOpt cfg.vmType pcfg.cloud_config.default_instance_type
  let _user_data := buildUserData pcfg
  let inst := p.createInstance name
  let _ ← p.waitReady inst.id
  let inst := if pyTruthy cfg.staticIP then p.refreshInstance inst else inst
  let sg ← (match vmfl with
    | none => .error "TypeError: NoneType object is not subscriptable"
    | some [] => .error "IndexError: list index out of range"
    | some (vmf0 :: _) => .ok (vmf0.id, vmf0.label))
  let publicIP ← attach_public_ip p inst (subnet.map (fun sn => sn.network_id))
  let _ := placement_zone
  .ok ⟨kp.id, kp.name, kp.material, sg.1, sg.2, inst.id, publicIP⟩

/-- Python dictionaries built by a sequence of insertions, with lookup
semantics of the final dictionary: the last insertion of a key wins. -/
abbrev PyDict (α : Type) := List (String × α)

/-- Lookup in a `PyDict`: the value of the last insertion of the key. -/
def dget {α : Type} (d : PyDict α) (k : String) : Option α :=
  d.foldl (fun acc kv => if kv.1 == k then some kv.2 else acc) none

/-- Python `\x7b**p, **c\x7d`: insert all of `p`, then all of `c`. -/
def pyMerge {α : Type} (p c : PyDict α) : PyDict α := p ++ c

/-- The final merge expression of `BaseVMAppPlugin.deploy`: a dictionary
with the single key `cloudLaunch` holding the provisioning result's
`cloudLaunch` map updated by the configuration result's `cloudLaunch`
map. -/
def deploy_merge {α : Type} (p_result c_result : PyDict (PyDict α)) :
    PyDict (PyDict α) :=
  [("cloudLaunch",
    pyMerge ((dget p_result "cloudLaunch").getD [])
            ((dget c_result "cloudLaunch").getD []))]

/-- A `task.update_state` call: the state and the `action` metadata. -/
structure TaskEvent where
  state : String
  action : String
deriving DecidableEq, Repr

/-- The configurer collaborator, as an oracle recording what its two
calls would return: `validate(app_config, provider_config)` and
`configure(app_config, provider_config)`. -/
structure Configurer (α : Type) where
  validate : Except String Unit
  configure : Except String (PyDict (PyDict α))

/-- `BaseVMAppPlugin._configure_host`: obtain a configurer, validate, then
configure, emitting progress events; every failure is caught, reported as
an ERROR event and converted to an empty result.  Returns the events
emitted and the configuration result. -/
def _configure_host {α : Type} (create_configurer : Except String (Configurer α)) :
    List TaskEvent × PyDict (PyDict α) :=
  match create_configurer with
  | .error e =>
      ([⟨"ERROR", "Unable to create app configurer: " ++ e⟩], [])
  | .ok configurer =>
      let ev1 : TaskEvent := ⟨"PROGRESSING", "Validating provider connection info..."⟩
      match configurer.validate with
      | .error e =>
          ([ev1, ⟨"ERROR", "Validation of provider connection info failed: " ++ e⟩], [])
      | .ok () =>
          let ev2 : TaskEvent := ⟨"PROGRESSING", "Configuring application..."⟩
          match configurer.configure with
          | .ok result =>
              ([ev1, ev2,
                ⟨"PROGRESSING", "Application configuration completed successfully."⟩],
               result)
          | .error e =>
              ([ev1, ev2, ⟨"ERROR", "Configuration failed: " ++ e⟩], [])

/-- The nested `launch_result` payload of a deployment record; every level
is read with `.get(key, \x7b\x7d)` in the source, hence optional. -/
structure InstRec where
  id : Option String
deriving DecidableEq, Repr

structure CLResult where
  inst : Option InstRec
deriving DecidableEq, Repr

structure LaunchResult where
  cloudLaunch : Option CLResult
deriving DecidableEq, Repr

/-- A persisted deployment record as consumed by the lifecycle methods. -/
structure Deployment where
  launch_status : Option String
  launch_result : Option LaunchResult
deriving DecidableEq, Repr

/-- `BaseVMAppPlugin._get_deployment_iid`: the recorded instance id, only
when the recorded launch status is SUCCESS; each `.get` defaults to an
empty dictionary. -/
def _get_deployment_iid (d : Deployment) : Option String :=
  if d.launch_status == some "SUCCESS" then
    ((((d.launch_result.getD ⟨none⟩).cloudLaunch.getD ⟨none⟩).inst.getD ⟨none⟩).id)
  else none

/-- `BaseVMAppPlugin.delete`: a falsy instance id short-circuits to
`False`; a vanished instance yields `True`; otherwise the instance is
deleted and the blocking wait (which raises on the ERROR terminal state)
must finish before `True` is returned. -/
def delete (p : Provider) (d : Deployment) : Except String Bool :=
  let iid := _get_deployment_iid d
  if !pyTruthy iid then .ok false
  else
    match p.instances.find? (fun i => i.id == iid.getD "") with
    | none => .ok true
    | some inst => do
        let _ ← p.deleteWait inst.id
        .ok true

/-!  Concrete sample values used by witnesses and counterexamples. -/

/-- A gateway with one floating IP in use, one free, and a fresh one. -/
def gwSample : Gateway :=
  ⟨[⟨"198.51.100.7", true⟩, ⟨"203.0.113.5", false⟩], ⟨"203.0.113.99", false⟩⟩

def snA : Subnet := ⟨"sn-a", "net-1", "zone-a"⟩

def netSample : Network := ⟨"net-1", "default-net", [snA], gwSample⟩

/-- The provider's default-subnet oracle for the sample provider. -/
def defaultSn (z : String) : Subnet := ⟨"sn-default", "net-default", z⟩

/-- A sample provider: one network with one subnet, no routers, no
pre-existing firewalls or key pairs, and a failing router-creation call
(used to exercise the swallowed reachability errors). -/
def P0 : Provider where
  networks := [netSample]
  subnets := [snA]
  routers := []
  getOrCreateDefaultSubnet := defaultSn
  vm_firewalls := []
  createVmf := fun label nid desc => ⟨"sg-1", label, nid, desc⟩
  key_pairs := []
  createKp := fun n => ⟨"kp-1", n, some "PRIVATE-KEY-MATERIAL"⟩
  images := [⟨"img-1"⟩]
  createRouter := fun _ _ => .error "router quota exceeded"
  getOrCreateGateway := fun _ => .ok gwSample
  attachGateway := fun _ _ => .ok ()
  attachSubnet := fun _ _ => .ok ()
  createInstance := fun label => ⟨"i-" ++ label, [], ["10.0.0.5"]⟩
  waitReady := fun _ => .ok ()
  refreshInstance := fun i => i
  instances := [⟨"i-123", [], ["10.0.0.5"]⟩]
  deleteWait := fun _ => .ok ()

/-!  Sample firewall specifications. -/

def ruleSsh : Rule := ⟨none, some "tcp", some "22", some "22", some "0.0.0.0/0"⟩

def ruleOtherId : Rule :=
  ⟨some "bd9756b8-e9ab-41b1-8a1b-e466a04a997c", some "tcp", some "22", some "22", none⟩

def groupA : GroupSpec := ⟨some "MyApp", some "My App SG", [ruleSsh]⟩

def groupB : GroupSpec := ⟨some "Other", none, [⟨none, some "tcp", some "80", some "80", some "0.0.0.0/0"⟩]⟩

def groupOther : GroupSpec := ⟨some "MyApp", some "My App SG", [ruleOtherId]⟩

/-- The security group the first group of a specification resolves to. -/
def firstGroupVmf (p : Provider) (subnet : Option Subnet) (g : GroupSpec) : VMF :=
  _get_or_create_vmf p subnet (pyOr g.securityGroup "cloudlaunch")
    (pyOr g.description "Created by CloudLaunch")

/-- Claim C1: for every firewall specification with two or more groups, a
single `configure_vm_firewalls` call returns after completing the first
group's rules — the call behaves exactly as on the specification truncated
to its first group, the returned list holds exactly the first group's
resolved security group, and the rule-creation calls issued are exactly
those of the first group's rules (so no rule of any later group is ever
applied). -/
theorem configure_vm_firewalls_first_group_only (p : Provider)
    (subnet : Option Subnet) (g : GroupSpec) (gs : List GroupSpec)
    (_hgs : gs ≠ []) :
    configure_vm_firewalls p subnet (g :: gs) =
      configure_vm_firewalls p subnet [g] ∧
    (configure_vm_firewalls p subnet (g :: gs)).1 =
      some [firstGroupVmf p subnet g] ∧
    (configure_vm_firewalls p subnet (g :: gs)).2 =
      g.rules.filterMap (applyRule (firstGroupVmf p subnet g)) :=
  ⟨rfl, rfl, rfl⟩

/-- Witness for C1 at a concrete two-group specification. -/
theorem configure_vm_firewalls_first_group_only_witness :
    configure_vm_firewalls P0 (some snA) (groupA :: [groupB]) =
      configure_vm_firewalls P0 (some snA) [groupA] :=
  (configure_vm_firewalls_first_group_only P0 (some snA) groupA [groupB]
    (by decide)).1

/-- Claim C2 (code bug): the rule of group `MyApp` names a *different*
security group id in `src_group`, yet the created inbound rule's
`src_dest_fw` argument is the group's own firewall (`sg-1`), because the
source passes `src_dest_fw=vmf` regardless of the value of `src_group`;
the referenced id never appears in the call. -/
theorem configure_vm_firewalls_src_group_ignored :
    (configure_vm_firewalls P0 (some snA) [groupOther]).2 =
      [⟨"sg-1", "INBOUND", some "tcp", 22, 22, some "sg-1", none⟩] ∧
    (⟨"sg-1", "INBOUND", some "tcp", 22, 22, some "sg-1", none⟩ : CreatedRule).src_dest_fw ≠
      some "bd9756b8-e9ab-41b1-8a1b-e466a04a997c" := by
  decide

/-- A deployment record whose launch status is not SUCCESS although an
instance id is recorded. -/
def deploymentPending : Deployment :=
  ⟨some "PENDING", some ⟨some ⟨some ⟨some "i-123"⟩⟩⟩⟩

/-- Claim C4 (counterexample): on a deployment whose launch status is
`PENDING` (so no instance id is derivable), `delete` returns `.ok false`,
not the success result `.ok true` the claim prescribes. -/
theorem delete_nonsuccess_counterexample :
    delete P0 deploymentPending = .ok false ∧
    delete P0 deploymentPending ≠ .ok true := by
  decide

/-- Claim C4 (amended): for every deployment record from which no
(truthy) instance id is derivable, `delete` short-circuits to the
negative result `False` — for *every* provider value, i.e. without
contacting the provider. -/
theorem delete_missing_iid_returns_false (p : Provider) (d : Deployment)
    (h : pyTruthy (_get_deployment_iid d) = false) :
    delete p d = .ok false := by
  simp [delete, h]

/-- Witness for the amended C4 at a concrete record and provider. -/
theorem delete_missing_iid_returns_false_witness :
    delete P0 deploymentPending = .ok false :=
  delete_missing_iid_returns_false P0 deploymentPending (by decide)

/-- A cloudlaunch configuration with `network=null`, `subnet=null`,
`placementZone=""` and no firewall specification. -/
def cfgNoFw : CLConfig :=
  ⟨none, none, some "", [], none, none, none, none, none, none⟩

/-- The provider configuration used alongside `cfgNoFw`. -/
def pcfg0 : ProviderConfig := ⟨⟨some "img-1", some "m1.small"⟩, none, none, none⟩

/-- Claim C3 (code bug): with no firewall specification the launch
properties resolve to the provider's default subnet and `vmf = None`
(no firewall groups created) — but `_provision_host` then faults while
assembling the result record: `results[securityGroup]` subscripts the
absent firewall list (`vmfl[0]` on `None`), raising a TypeError instead
of producing the successful result the claim describes. -/
theorem provision_no_firewall_faults :
    resolve_launch_properties P0 cfgNoFw = .ok (some (defaultSn ""), some "", none) ∧
    _provision_host P0 "myapp" cfgNoFw pcfg0 =
      .error "TypeError: NoneType object is not subscriptable" := by
  decide

/-- `findSubnetIn` without a placement constraint returns the first
subnet. -/
theorem findSubnetIn_not_truthy (placement : Option String)
    (hp : pyTruthy placement = false) (l : List Subnet) :
    findSubnetIn placement l = l.head? := by
  cases l with
  | nil => rfl
  | cons sn rest => simp [findSubnetIn, hp]

/-- `findSubnetIn` with a placement constraint returns the first subnet
whose zone matches it. -/
theorem findSubnetIn_truthy (placement : Option String)
    (hp : pyTruthy placement = true) (l : List Subnet) :
    findSubnetIn placement l =
      l.find? (fun sn => sn.zone == placement.getD "") := by
  induction l with
  | nil => rfl
  | cons sn rest ih =>
      cases hz : (sn.zone == placement.getD "") <;>
        simp [findSubnetIn, hp, List.find?_cons, ih, hz]

/-- Claim C6 (counterexample): the sample provider's network `net-1` is
given, yet for placement `zone-b` (which no subnet of `net-1` has) the
resolved subnet is the provider's *default* subnet — which is not a
subnet of `net-1` — refuting both that the result is a subnet of the
given network and that the default subnet is requested only when neither
a subnet id nor a network id is given. -/
theorem default_subnet_despite_network_counterexample :
    get_or_create_default_subnet P0 (some "net-1") (some "zone-b") =
      .ok (P0.getOrCreateDefaultSubnet "zone-b") ∧
    P0.getOrCreateDefaultSubnet "zone-b" ∉ netSample.subnets := by
  decide

/-- Claim C6 (amended): when no subnet id is given, a network id is given
and the network exists: with no placement constraint the result is the
network's first subnet, and with one it is the network's first subnet
whose zone matches; in either case, when no such subnet exists the
provider's default subnet for the (normalised) placement is requested —
so the default is requested not only when neither id is given. -/
theorem get_or_create_default_subnet_characterization (p : Provider)
    (nid : Option String) (net : Network) (placement : Option String)
    (hnid : pyTruthy nid = true)
    (hnet : getNetwork p (nid.getD "") = some net) :
    (pyTruthy placement = false →
      get_or_create_default_subnet p nid placement =
        match net.subnets.head? with
        | some sn => .ok sn
        | none => .ok (p.getOrCreateDefaultSubnet "")) ∧
    (pyTruthy placement = true →
      get_or_create_default_subnet p nid placement =
        match net.subnets.find? (fun sn => sn.zone == placement.getD "") with
        | some sn => .ok sn
        | none => .ok (p.getOrCreateDefaultSubnet (placement.getD ""))) := by
  constructor
  · intro hp
    simp only [get_or_create_default_subnet, hnid, hnet, if_true,
      findSubnetIn_not_truthy placement hp, hp]
    cases net.subnets.head? <;> simp
  · intro hp
    simp only [get_or_create_default_subnet, hnid, hnet, if_true,
      findSubnetIn_truthy placement hp, hp]
    cases net.subnets.find? (fun sn => sn.zone == placement.getD "") <;> simp

/-- Witness for the amended C6: a matching placement returns the
network's matching subnet. -/
theorem get_or_create_default_subnet_characterization_witness :
    get_or_create_default_subnet P0 (some "net-1") (some "zone-a") = .ok snA :=
  (get_or_create_default_subnet_characterization P0 (some "net-1") netSample
    (some "zone-a") (by decide) (by decide)).2 (by decide)

/-- Claim C9: whenever subnet resolution succeeds, `setup_networking`
returns exactly the resolved subnet — for every provider, in particular
ones whose router creation, gateway creation/attachment or subnet
attachment fail: the reachability block's outcome is swallowed and never
propagates. -/
theorem setup_networking_swallows_reachability_errors (p : Provider)
    (net_id subnet_id placement : Option String) (sn : Option Subnet)
    (h : resolve_subnet p net_id subnet_id placement = .ok sn) :
    setup_networking p net_id subnet_id placement = .ok sn := by
  simp only [setup_networking, h]
  rfl

/-- Witness for C9: `P0`'s router creation always fails, yet
`setup_networking` still returns the resolved subnet. -/
theorem setup_networking_swallows_reachability_errors_witness :
    setup_networking P0 none (some "sn-a") none = .ok (some snA) :=
  setup_networking_swallows_reachability_errors P0 none (some "sn-a") none
    (some snA) rfl

/-- The tier-1 test fails: the instance reports no public address, or its
first public address is the empty string. -/
def noUsablePublicIp (inst : Instance) : Bool :=
  match inst.public_ips with
  | [] => true
  | pub0 :: _ => pub0.isEmpty

/-- When tier 1 does not apply, `attach_public_ip` is its fall-through. -/
theorem attach_public_ip_to_private (p : Provider) (inst : Instance)
    (nid : Option String) (h : noUsablePublicIp inst = true) :
    attach_public_ip p inst nid = attachFromPrivate p inst nid := by
  obtain ⟨iid, pubs, privs⟩ := inst
  cases pubs with
  | nil => rfl
  | cons pub0 rest => simp_all [attach_public_ip, noUsablePublicIp]

theorem parse_ipv4_empty : parse_ipv4 "" = none := rfl

/-- A string that parses as an IPv4 address is non-empty. -/
theorem parse_ipv4_ne_empty (s : String) (addr : Nat)
    (h : parse_ipv4 s = some addr) : s ≠ "" := by
  intro hs
  rw [hs, parse_ipv4_empty] at h
  cases h

/-- Claim C5: `attach_public_ip` returns a non-empty address by the
three-tier fallback, in strict precedence order, whenever one of the four
branches applies (given that the launch network resolves and that the
provider's floating IPs carry non-empty addresses): (1) a non-empty first
public address is returned unchanged; (2) else a globally routable first
private address is returned; (3) else the address of the first unused
floating IP on the network's gateway is returned; (4) and when none is
free, the address of the freshly allocated floating IP is returned. -/
theorem attach_public_ip_three_tier (p : Provider) (inst : Instance)
    (nid : Option String) (net : Network)
    (hnet : nid.bind (getNetwork p) = some net)
    (hfips : ∀ fip ∈ net.gateway.floating_ips, fip.public_ip ≠ "")
    (hnew : net.gateway.newFip.public_ip ≠ "") :
    (∀ pub0 rest, inst.public_ips = pub0 :: rest → pub0 ≠ "" →
        attach_public_ip p inst nid = .ok pub0) ∧
    (∀ priv0 rest addr, noUsablePublicIp inst = true →
        inst.private_ips = priv0 :: rest →
        parse_ipv4 priv0 = some addr → ipv4_is_global addr = true →
        attach_public_ip p inst nid = .ok priv0 ∧ priv0 ≠ "") ∧
    (∀ priv0 rest addr fip, noUsablePublicIp inst = true →
        inst.private_ips = priv0 :: rest →
        parse_ipv4 priv0 = some addr → ipv4_is_global addr = false →
        net.gateway.floating_ips.find? (fun ip => !ip.in_use) = some fip →
        attach_public_ip p inst nid = .ok fip.public_ip ∧ fip.public_ip ≠ "") ∧
    (∀ priv0 rest addr, noUsablePublicIp inst = true →
        inst.private_ips = priv0 :: rest →
        parse_ipv4 priv0 = some addr → ipv4_is_global addr = false →
        net.gateway.floating_ips.find? (fun ip => !ip.in_use) = none →
        attach_public_ip p inst nid = .ok net.gateway.newFip.public_ip ∧
        net.gateway.newFip.public_ip ≠ "") := by
  refine ⟨?_, ?_, ?_, ?_⟩
  · intro pub0 rest hpub hne
    obtain ⟨iid, pubs, privs⟩ := inst
    cases hpub
    have : pub0.isEmpty = false := by
      cases he : pub0.isEmpty
      · rfl
      · exact absurd (String.isEmpty_iff pub0 |>.mp he) hne
    simp [attach_public_ip, this]
  · intro priv0 rest addr hno hpriv hparse hglob
    rw [attach_public_ip_to_private p inst nid hno]
    refine ⟨?_, parse_ipv4_ne_empty priv0 addr hparse⟩
    obtain ⟨iid, pubs, privs⟩ := inst
    cases hpriv
    simp [attachFromPrivate, hparse, hglob]
  · intro priv0 rest addr fip hno hpriv hparse hglob hfind
    rw [attach_public_ip_to_private p inst nid hno]
    refine ⟨?_, hfips fip (List.mem_of_find?_eq_some hfind)⟩
    obtain ⟨iid, pubs, privs⟩ := inst
    cases hpriv
    simp [attachFromPrivate, hparse, hglob, hnet, hfind]
  · intro priv0 rest addr hno hpriv hparse hglob hfind
    rw [attach_public_ip_to_private p inst nid hno]
    refine ⟨?_, hnew⟩
    obtain ⟨iid, pubs, privs⟩ := inst
    cases hpriv
    simp [attachFromPrivate, hparse, hglob, hnet, hfind]

/-- A ready instance with no public address and a non-routable private
address, as the sample provider launches them. -/
def inst5 : Instance := ⟨"i-5", [], ["10.0.0.5"]⟩

/-- Witness for C5 hitting tier 3: the free floating IP on the sample
gateway is attached and its address returned. -/
theorem attach_public_ip_three_tier_witness :
    attach_public_ip P0 inst5 (some "net-1") = .ok "203.0.113.5" ∧
    ("203.0.113.5" : String) ≠ "" :=
  (attach_public_ip_three_tier P0 inst5 (some "net-1") netSample (by decide)
      (by decide) (by decide)).2.2.1 "10.0.0.5" [] 0x0A000005
    ⟨"203.0.113.5", false⟩ (by decide) rfl (by decide) (by decide) (by decide)

/-- Claim C10: when tier 1 does not apply, `attach_public_ip` immediately
reads the first private address and parses it — an instance with no
private addresses raises an IndexError and one whose first private
address does not parse raises a ValueError; a non-empty, well-formed
private-address list is an unstated precondition. -/
theorem attach_public_ip_requires_private (p : Provider) (inst : Instance)
    (nid : Option String) (hpub : noUsablePublicIp inst = true) :
    (inst.private_ips = [] →
      attach_public_ip p inst nid =
        .error "IndexError: list index out of range") ∧
    (∀ priv0 rest, inst.private_ips = priv0 :: rest →
      parse_ipv4 priv0 = none →
      attach_public_ip p inst nid =
        .error ("ValueError: " ++ priv0 ++
          " does not appear to be an IPv4 or IPv6 address")) := by
  constructor
  · intro hpriv
    rw [attach_public_ip_to_private p inst nid hpub]
    obtain ⟨iid, pubs, privs⟩ := inst
    cases hpriv
    rfl
  · intro priv0 rest hpriv hparse
    rw [attach_public_ip_to_private p inst nid hpub]
    obtain ⟨iid, pubs, privs⟩ := inst
    cases hpriv
    simp [attachFromPrivate, hparse]

/-- Witness for C10: an instance with no addresses at all makes the call
raise the IndexError. -/
theorem attach_public_ip_requires_private_witness :
    attach_public_ip P0 ⟨"i-bare", [], []⟩ none =
      .error "IndexError: list index out of range" :=
  (attach_public_ip_requires_private P0 ⟨"i-bare", [], []⟩ none (by decide)).1
    rfl

/-- Folding the `dget` step over any accumulator: the dictionary's own
lookup wins and the accumulator is the fallback. -/
theorem dget_foldl {α : Type} (c : PyDict α) (k : String) :
    ∀ acc : Option α,
      c.foldl (fun a kv => if kv.1 == k then some kv.2 else a) acc =
        match dget c k with
        | some v => some v
        | none => acc := by
  induction c with
  | nil => intro acc; rfl
  | cons kv rest ih =>
      intro acc
      show rest.foldl _ (if kv.1 == k then some kv.2 else acc) = _
      have hd : dget (kv :: rest) k =
          rest.foldl (fun a kv' => if kv'.1 == k then some kv'.2 else a)
            (if kv.1 == k then some kv.2 else none) := rfl
      rw [ih, hd, ih]
      cases hr : dget rest k with
      | some v => rfl
      | none => cases hb : (kv.1 == k) <;> simp

/-- Claim C7: whenever configurer creation, `validate` or `configure`
fails, `_configure_host` emits an ERROR progress event, returns the empty
result, and `deploy`'s merge of that empty result into the provisioning
result leaves the provisioning result unchanged — the failure never
propagates past the configuration stage. -/
theorem configure_failure_isolated {α : Type}
    (cc : Except String (Configurer α)) (pcl : PyDict α)
    (h : (∃ e, cc = .error e) ∨
         ∃ c, cc = .ok c ∧
           ((∃ e, c.validate = .error e) ∨ ∃ e, c.configure = .error e)) :
    (_configure_host cc).1.any (fun ev => ev.state == "ERROR") = true ∧
    (_configure_host cc).2 = [] ∧
    deploy_merge [("cloudLaunch", pcl)] (_configure_host cc).2 =
      [("cloudLaunch", pcl)] := by
  have hmerge : deploy_merge [("cloudLaunch", pcl)] ([] : PyDict (PyDict α)) =
      [("cloudLaunch", pcl)] := by
    simp [deploy_merge, dget, pyMerge]
  rcases h with ⟨e, rfl⟩ | ⟨c, rfl, ⟨e, hv⟩ | ⟨e, hc⟩⟩
  · exact ⟨rfl, rfl, hmerge⟩
  · refine ⟨?_, ?_, ?_⟩ <;> simp [_configure_host, hv, hmerge]
  · cases hval : c.validate with
    | error e' => refine ⟨?_, ?_, ?_⟩ <;> simp [_configure_host, hval, hmerge]
    | ok u =>
        cases u
        refine ⟨?_, ?_, ?_⟩ <;> simp [_configure_host, hval, hc, hmerge]

/-- A failing configurer-creation outcome over `Nat`-valued results. -/
def confFail : Except String (Configurer Nat) := .error "no configurer module"

def pclSample : PyDict Nat := [("instanceCount", 1)]

/-- Witness for C7: a failed configurer creation yields the ERROR event,
the empty result and an unchanged provisioning result. -/
theorem configure_failure_isolated_witness :
    (_configure_host confFail).1.any (fun ev => ev.state == "ERROR") = true ∧
    (_configure_host confFail).2 = [] ∧
    deploy_merge [("cloudLaunch", pclSample)] (_configure_host confFail).2 =
      [("cloudLaunch", pclSample)] :=
  configure_failure_isolated confFail pclSample
    (Or.inl ⟨"no configurer module", rfl⟩)

/-- Claim C8: merged dictionaries look up to the right operand's value
when present and the left operand's otherwise, and the spec's concrete
example merges as prescribed. -/
theorem merge_precedence :
    (∀ (α : Type) (p c : PyDict α) (k : String),
      dget (pyMerge p c) k =
        match dget c k with
        | some v => some v
        | none => dget p k) ∧
    dget (pyMerge [("a", (1 : Nat)), ("b", 2)] [("b", 3), ("c", 4)]) "a" = some 1 ∧
    dget (pyMerge [("a", (1 : Nat)), ("b", 2)] [("b", 3), ("c", 4)]) "b" = some 3 ∧
    dget (pyMerge [("a", (1 : Nat)), ("b", 2)] [("b", 3), ("c", 4)]) "c" = some 4 ∧
    dget (pyMerge [("a", (1 : Nat)), ("b", 2)] [("b", 3), ("c", 4)]) "d" = none := by
  refine ⟨?_, by decide, by decide, by decide, by decide⟩
  intro α p c k
  show (p ++ c).foldl _ none = _
  rw [List.foldl_append]
  exact dget_foldl c k _

end CloudLaunch
